import Mathlib

/-!
Verification of the column-role inference, numeric-column detection,
filtering, aggregation and display-projection logic of the
University-Education-Equity-Cost dashboard (`src/ui.py`), shallowly
embedded in Lean 4.

Cells are modelled as tagged variants (integer, float, text, missing),
matching the dynamic cell values the program manipulates; a dataset is an
ordered list of rows, each an association list from column name to cell.
-/

namespace EduDash

/-- A cell value: a Python `int`, a Python `float` (modelled as `ℚ`),
a text string, or a missing value (`NaN`/`None`). -/
inductive Cell where
  | intv : Int → Cell
  | floatv : ℚ → Cell
  | text : String → Cell
  | missing : Cell
deriving DecidableEq

/-- A row: association list from column name to cell value. -/
abbrev Row := List (String × Cell)

/-- A dataset: ordered column names plus ordered rows
(mirrors the `pandas.DataFrame` held in `self.df`). -/
structure Dataset where
  cols : List String
  rows : List Row
deriving DecidableEq

/-- Cell lookup in a row; a column absent from the row reads as missing
(in pandas every row has every column, so this default is benign). -/
def getCell (r : Row) (c : String) : Cell :=
  match r.lookup c with
  | some v => v
  | none => Cell.missing

/-- Numeric coercion of a cell, as `pd.to_numeric(·, errors='coerce')`:
numbers pass through, text and missing coerce to missing. -/
def toNum : Cell → Option ℚ
  | Cell.intv n => some (n : ℚ)
  | Cell.floatv q => some q
  | Cell.text _ => none
  | Cell.missing => none

/-! ### String helpers mirroring the Python string operations used -/

/-- `pat` occurs at the start of `s` (character-list level). -/
def hasPre : List Char → List Char → Bool
  | [], _ => true
  | _ :: _, [] => false
  | p :: ps, c :: cs => p = c && hasPre ps cs

/-- `pat` occurs somewhere inside `s` (character-list level),
mirroring Python's `pat in s`. -/
def hasSub (pat : List Char) : List Char → Bool
  | [] => hasPre pat []
  | c :: cs => hasPre pat (c :: cs) || hasSub pat cs

/-- Python's `pat in s` on strings. -/
def strContains (s pat : String) : Bool :=
  hasSub pat.toList s.toList

/-- Python's `str.lower()`, character by character. -/
def lowerStr (s : String) : String :=
  (s.toList.map Char.toLower).asString

/-! ### Column role resolution (`detect_columns`) -/

/-- Predicate for the name role: lower-cased column name contains
`"name"` and does not contain `"state"`. -/
def namePred (c : String) : Bool :=
  strContains (lowerStr c) "name" && !(strContains (lowerStr c) "state")

/-- Predicate for the state role: lower-cased name is exactly one of
`state`, `state_name`, `state_code`. -/
def statePred (c : String) : Bool :=
  decide (lowerStr c = "state") || decide (lowerStr c = "state_name") ||
  decide (lowerStr c = "state_code")

/-- Predicate for the type role: lower-cased name is exactly one of
`type`, `category`, `income_lvl`. -/
def typePred (c : String) : Bool :=
  decide (lowerStr c = "type") || decide (lowerStr c = "category") ||
  decide (lowerStr c = "income_lvl")

/-- First element of the list satisfying `p`, mirroring each
`for col in self.df.columns: ... break` loop of `detect_columns`. -/
def firstMatch (p : String → Bool) : List String → Option String
  | [] => none
  | c :: cs => if p c then some c else firstMatch p cs

/-- The role map produced by `detect_columns`: each of the three roles is
resolved by an independent scan over the columns in original order. -/
structure RoleMap where
  nameCol : Option String
  stateCol : Option String
  typeCol : Option String
deriving DecidableEq

/-- `detect_columns` from `src/ui.py`. -/
def detectColumns (cols : List String) : RoleMap :=
  { nameCol := firstMatch namePred cols
    stateCol := firstMatch statePred cols
    typeCol := firstMatch typePred cols }

/-! ### Column-name stripping after load (`[c.strip() for c in self.df.columns]`) -/

/-- Drop leading whitespace from a character list. -/
def dropWs (l : List Char) : List Char := l.dropWhile Char.isWhitespace

/-- Python's `str.strip()` on the character list: remove trailing then
leading whitespace. -/
def stripChars (l : List Char) : List Char := dropWs ((dropWs l.reverse).reverse)

/-- Python's `str.strip()`. -/
def stripStr (s : String) : String := (stripChars s.toList).asString

/-- Renaming the columns of a row when the dataframe's column labels are
stripped (pandas keeps each cell attached to its relabelled column). -/
def stripRow (r : Row) : Row := r.map (fun p => (stripStr p.1, p.2))

/-- The dataset after `self.df.columns = [c.strip() for c in self.df.columns]`. -/
def stripCols (d : Dataset) : Dataset :=
  { cols := d.cols.map stripStr, rows := d.rows.map stripRow }

/-! ### Numeric column detection (`get_numeric_columns`) -/

/-- Number of values of column `c` that parse as numeric
(`pd.to_numeric(...).notna().sum()`). -/
def numericCount (df : Dataset) (c : String) : Nat :=
  (df.rows.filter (fun r => (toNum (getCell r c)).isSome)).length

/-- `get_numeric_columns`: columns whose parseable-value count strictly
exceeds `len(df) * 0.5`. -/
def getNumericColumns (df : Dataset) : List String :=
  df.cols.filter (fun c =>
    decide ((numericCount df c : ℚ) > (df.rows.length : ℚ) * (1 / 2)))

/-! ### Filtering (`apply_filters`) -/

/-- Pandas elementwise equality of a cell against the combobox string:
only a text cell can equal a string selection. -/
def cellEqStr (v : Cell) (s : String) : Bool :=
  match v with
  | Cell.text t => decide (t = s)
  | _ => false

/-- `apply_filters` from `src/ui.py`: on a non-empty dataset, filter by the
resolved state column when the state selection is non-empty and not
`"(All)"`, then likewise by the resolved type column. -/
def applyFilters (df : Dataset) (stateSel typeSel : String) : Dataset :=
  if df.rows.isEmpty then df
  else
    let cm := detectColumns df.cols
    let rows1 :=
      match cm.stateCol with
      | some sc =>
          if stateSel ≠ "" ∧ stateSel ≠ "(All)" then
            df.rows.filter (fun r => cellEqStr (getCell r sc) stateSel)
          else df.rows
      | none => df.rows
    let rows2 :=
      match cm.typeCol with
      | some tc =>
          if typeSel ≠ "" ∧ typeSel ≠ "(All)" then
            rows1.filter (fun r => cellEqStr (getCell r tc) typeSel)
          else rows1
      | none => rows1
    { cols := df.cols, rows := rows2 }

/-- Row predicate actually enforced by the state filter: the `"(All)"`
sentinel, the empty string, or an unresolved state role keep every row. -/
def keepState (df : Dataset) (s : String) (r : Row) : Bool :=
  match (detectColumns df.cols).stateCol with
  | none => true
  | some sc => if s = "" ∨ s = "(All)" then true else cellEqStr (getCell r sc) s

/-- Row predicate actually enforced by the type filter. -/
def keepType (df : Dataset) (t : String) (r : Row) : Bool :=
  match (detectColumns df.cols).typeCol with
  | none => true
  | some tc => if t = "" ∨ t = "(All)" then true else cellEqStr (getCell r tc) t

/-! ### Selections and post-load setup (`setup_ui_after_load`) -/

/-- The three user selections held by the combobox variables. -/
structure Selections where
  stateSel : String
  typeSel : String
  metricSel : String
deriving DecidableEq

/-- Selection state after `setup_ui_after_load`: both filter combos are set
to index 0 (the `"(All)"` sentinel); the metric variable is set to the first
numeric column when one exists, and otherwise left untouched. -/
def setupUiAfterLoad (df : Dataset) (old : Selections) : Selections :=
  { stateSel := "(All)"
    typeSel := "(All)"
    metricSel :=
      match getNumericColumns df with
      | [] => old.metricSel
      | c :: _ => c }

/-! ### Load paths (`load_csv`, `load_data_from_db`) -/

/-- Kind of message box shown by a load attempt. -/
inductive LoadMsg where
  | info
  | warning
  | loadError
deriving DecidableEq

/-- `load_csv`: the provider result either fails (current dataset kept,
error box) or succeeds, in which case the dataset is replaced by the
column-stripped result unconditionally — there is no empty-result check. -/
def loadCsv (prev : Dataset) (res : Except String Dataset) : Dataset × LoadMsg :=
  match res with
  | Except.error _ => (prev, LoadMsg.loadError)
  | Except.ok d => (stripCols d, LoadMsg.info)

/-- `load_data_from_db`: a failure keeps the current dataset with an error
box; a successful but empty result keeps the current dataset with a
warning; otherwise the dataset is replaced by the column-stripped result. -/
def loadDb (prev : Dataset) (res : Except String Dataset) : Dataset × LoadMsg :=
  match res with
  | Except.error _ => (prev, LoadMsg.loadError)
  | Except.ok d =>
      if d.rows.isEmpty then (prev, LoadMsg.warning)
      else (stripCols d, LoadMsg.info)

/-! ### Aggregation (`update_summary`) -/

/-- Duplicate removal keeping first occurrences, as `Series.nunique`
counts distinct non-missing values. -/
def dedupFirst {α : Type} [DecidableEq α] : List α → List α
  | [] => []
  | a :: l => a :: ((dedupFirst l).filter (fun x => decide (x ≠ a)))

/-- The metric column of a view coerced to numeric with failures dropped
(`pd.to_numeric(df[metric], errors='coerce')` followed by NaN-skipping). -/
def parsedValues (view : Dataset) (metric : String) : List ℚ :=
  view.rows.filterMap (fun r => toNum (getCell r metric))

/-- Pandas `Series.mean`: NaN (here `none`) when no valid value exists. -/
def meanOpt (l : List ℚ) : Option ℚ :=
  if l.isEmpty then none else some (l.sum / (l.length : ℚ))

/-- Insert into an ascending-sorted list. -/
def insertAsc (x : ℚ) : List ℚ → List ℚ
  | [] => [x]
  | y :: ys => if x ≤ y then x :: y :: ys else y :: insertAsc x ys

/-- Ascending sort. -/
def sortAsc (l : List ℚ) : List ℚ := l.foldr insertAsc []

/-- Pandas `Series.median`: NaN (`none`) when no valid value exists;
middle element for odd length, average of the two middles for even. -/
def medianOpt (l : List ℚ) : Option ℚ :=
  if l.isEmpty then none
  else
    let s := sortAsc l
    let n := s.length
    if n % 2 = 1 then some (s.getD (n / 2) 0)
    else some ((s.getD (n / 2 - 1) 0 + s.getD (n / 2) 0) / 2)

/-- What the three summary labels display after `update_summary` runs on a
non-empty dataset: the count label always shows a number (distinct names
when a name role is resolved, otherwise the row count); the average and
median labels show a value or `"N/A"` (`none`). -/
structure Summary where
  distinctNames : Bool
  count : Nat
  avg : Option ℚ
  med : Option ℚ
deriving DecidableEq

/-- Body of `update_summary` applied to the filtered view: counts, then
mean/median of the selected metric when it names a column of the view. -/
def summaryCore (view : Dataset) (roles : RoleMap) (metric : String) : Summary :=
  let cnt :=
    match roles.nameCol with
    | some nc =>
        (dedupFirst ((view.rows.map (fun r => getCell r nc)).filter
          (fun v => decide (v ≠ Cell.missing)))).length
    | none => view.rows.length
  let vals := parsedValues view metric
  if metric ≠ "" ∧ metric ∈ view.cols then
    { distinctNames := roles.nameCol.isSome, count := cnt
      avg := meanOpt vals, med := medianOpt vals }
  else
    { distinctNames := roles.nameCol.isSome, count := cnt
      avg := none, med := none }

/-! ### Chart projection (`update_charts`, chart half) -/

/-- What the chart area shows after a successful render: a state bar chart
of per-state means, a histogram of the metric values, or the
"No valid data for selected metric" placeholder text. -/
inductive Chart where
  | bars : List (Cell × ℚ) → Chart
  | hist : List ℚ → Chart
  | placeholder : Chart
deriving DecidableEq

/-- Metric values of the rows of `view` whose state cell equals `k`. -/
def groupValues (view : Dataset) (sc : String) (metric : String) (k : Cell) : List ℚ :=
  (view.rows.filter (fun r => decide (getCell r sc = k))).filterMap
    (fun r => toNum (getCell r metric))

/-- Insert into a list sorted descending by the mean component; a strict
comparison keeps the sort stable (pandas `nlargest` keeps first). -/
def insertDesc (x : Cell × ℚ) : List (Cell × ℚ) → List (Cell × ℚ)
  | [] => [x]
  | y :: ys => if x.2 > y.2 then x :: y :: ys else y :: insertDesc x ys

/-- Stable descending sort by mean. -/
def sortDescByMean (l : List (Cell × ℚ)) : List (Cell × ℚ) :=
  l.foldl (fun acc x => insertDesc x acc) []

/-- `df_plot.groupby(state)[metric].mean().nlargest(10)`: group keys are the
distinct non-missing state cells; each group's mean skips missing metric
values; groups whose mean is NaN are dropped by `nlargest`, which then keeps
the 10 largest means. -/
def groupedTop10 (view : Dataset) (sc : String) (metric : String) : List (Cell × ℚ) :=
  let keys := dedupFirst ((view.rows.map (fun r => getCell r sc)).filter
    (fun v => decide (v ≠ Cell.missing)))
  let withMeans := keys.filterMap (fun k =>
    (meanOpt (groupValues view sc metric k)).map (fun m => (k, m)))
  (sortDescByMean withMeans).take 10

/-- The chart built by `update_charts` once the metric check has passed:
with a state role, a bar chart of the top-10 state means, falling back to
the placeholder when that series is empty; without a state role, a
histogram of the non-missing metric values — with no emptiness check. -/
def buildChart (view : Dataset) (roles : RoleMap) (metric : String) : Chart :=
  match roles.stateCol with
  | some sc =>
      let grouped := groupedTop10 view sc metric
      if grouped.isEmpty then Chart.placeholder else Chart.bars grouped
  | none => Chart.hist (parsedValues view metric)

/-! ### Table projection (`update_table`) -/

/-- Thousands-digit grouping of a reversed digit list: a comma after every
third digit from the right. -/
def commasRev : List Char → Nat → List Char
  | [], _ => []
  | c :: cs, k =>
      if k = 3 then ',' :: c :: commasRev cs 1 else c :: commasRev cs (k + 1)

/-- Decimal rendering of a natural number with thousands separators. -/
def groupNat (n : Nat) : String :=
  ((commasRev (toString n).toList.reverse 0).reverse).asString

/-- Two-digit zero-padded rendering of `m < 100`. -/
def pad2 (m : Nat) : String :=
  if m < 10 then "0" ++ toString m else toString m

/-- Python's `f"{val:,.2f}"`: round to two decimals, group the integer part
by thousands, always show two decimal digits. -/
def formatGrouped (q : ℚ) : String :=
  let n : Int := round (q * 100)
  let sign := if n < 0 then "-" else ""
  let a := n.natAbs
  sign ++ groupNat (a / 100) ++ "." ++ pad2 (a % 100)

/-- Python's `str.title()` on a character list: upper-case each letter that
starts an alphabetic run, lower-case the rest. -/
def titleChars : List Char → Bool → List Char
  | [], _ => []
  | c :: cs, startWord =>
      if c.isAlpha then
        (if startWord then c.toUpper else c.toLower) :: titleChars cs false
      else c :: titleChars cs true

/-- `metric.replace('_', ' ').title()` used for headers. -/
def displayName (s : String) : String :=
  (titleChars (s.toList.map (fun ch => if ch = '_' then ' ' else ch)) true).asString

/-- Cell rendering of `update_table`: missing shows `"N/A"`; a Python float
is formatted `,.2f` (both float branches of the source produce the same
format); a Python int falls to `str(val)`; text is `str(val)[:50]`. -/
def formatCell : Cell → String
  | Cell.missing => "N/A"
  | Cell.floatv q => formatGrouped q
  | Cell.intv n => toString n
  | Cell.text s => (s.toList.take 50).asString

/-- The first stage of `update_table`'s column choice: the resolved name
column (headed "Name"), then the resolved state column (headed "State"). -/
def basePairs (roles : RoleMap) : List (String × String) :=
  (match roles.nameCol with
   | some c => [(c, "Name")]
   | none => []) ++
  (match roles.stateCol with
   | some c => [(c, "State")]
   | none => [])

/-- Second stage: append the current metric when it is non-empty, is a
column of the view, and is not already chosen. -/
def metricPairs (view : Dataset) (roles : RoleMap) (metric : String) :
    List (String × String) :=
  let d1 := basePairs roles
  if metric ≠ "" ∧ metric ∈ view.cols ∧ metric ∉ d1.map Prod.fst then
    d1 ++ [(metric, displayName metric)]
  else d1

/-- The `(display_cols, col_headers)` pairs built by `update_table`: name
column, state column, the metric when eligible, then the first numeric
column not already chosen provided fewer than 4 columns are selected
(the loop breaks after the first hit). -/
def displayPairs (view : Dataset) (roles : RoleMap) (metric : String)
    (numericCols : List String) : List (String × String) :=
  let d2 := metricPairs view roles metric
  match (if d2.length < 4 then
          numericCols.find? (fun c => decide (c ∉ d2.map Prod.fst))
         else none) with
  | some c => d2 ++ [(c, displayName c)]
  | none => d2

/-- The column-selection order stated by the specification, written
directly on column names: the resolved name column, then the resolved
state column, then the current metric when it is a column of the view and
not already included, then the first additional numeric column not yet
included, provided fewer than 4 columns are selected so far. -/
def specTableCols (view : Dataset) (roles : RoleMap) (metric : String)
    (numericCols : List String) : List String :=
  let base := roles.nameCol.toList ++ roles.stateCol.toList
  let withMetric :=
    if metric ≠ "" ∧ metric ∈ view.cols ∧ metric ∉ base then base ++ [metric]
    else base
  if withMetric.length < 4 then
    match numericCols.find? (fun c => decide (c ∉ withMetric)) with
    | some c => withMetric ++ [c]
    | none => withMetric
  else withMetric

/-- The rendered preview table. -/
structure TableOut where
  headers : List String
  colsSel : List String
  rowsOut : List (List String)
deriving DecidableEq

/-- `update_table`: choose display columns, then render the first 30 rows
of the view in original order. -/
def updateTable (view : Dataset) (roles : RoleMap) (metric : String)
    (numericCols : List String) : TableOut :=
  let pairs := displayPairs view roles metric numericCols
  { headers := pairs.map Prod.snd
    colsSel := pairs.map Prod.fst
    rowsOut := (view.rows.take 30).map
      (fun r => pairs.map (fun p => formatCell (getCell r p.1))) }

/-! ### Display state and `update_charts` -/

/-- What the main area currently shows: the summary labels (`none` before
any load), the chart area content (`none` when blank), and the preview
table content (`none` before first render). -/
structure Display where
  summaryD : Option Summary
  chart : Option Chart
  table : Option TableOut
deriving DecidableEq

/-- `update_charts` from `src/ui.py`: on an empty dataset, warn and leave
the display untouched; otherwise compute the filtered view, refresh the
summary labels, destroy the previous chart widget, and only then check the
metric — when it is empty or not a column, warn and stop (chart stays
cleared, table keeps its old rows); otherwise render chart and table. -/
def updateCharts (df : Dataset) (stateSel typeSel metric : String)
    (disp : Display) : Display :=
  if df.rows.isEmpty then disp
  else
    let view := applyFilters df stateSel typeSel
    let roles := detectColumns df.cols
    let d1 := { disp with summaryD := some (summaryCore view roles metric) }
    let d2 := { d1 with chart := none }
    if metric = "" ∨ metric ∉ view.cols then d2
    else
      { d2 with
        chart := some (buildChart view roles metric)
        table := some (updateTable view roles metric (getNumericColumns df)) }

/-! ### Concrete datasets used as witnesses and counterexamples -/

/-- A one-row dataset with name, state and a numeric metric column. -/
def exDf : Dataset :=
  { cols := ["school_name", "state", "val"]
    rows := [[("school_name", Cell.text "A U"), ("state", Cell.text "CA"),
              ("val", Cell.floatv 1)]] }

/-- A dataset whose only column holds text, so no numeric column exists. -/
def exDfNoNum : Dataset :=
  { cols := ["a"]
    rows := [[("a", Cell.text "x")], [("a", Cell.text "y")]] }

/-- A dataset with a metric column but no state role, whose metric values
are all non-numeric. -/
def exDfNoState : Dataset :=
  { cols := ["val"]
    rows := [[("val", Cell.text "oops")]] }

/-- A dataset with a state role whose metric column holds no parseable
value at all. -/
def exDfStateMiss : Dataset :=
  { cols := ["state", "val"]
    rows := [[("state", Cell.text "CA"), ("val", Cell.text "bad")]] }

/-- A dataset with columns carrying surrounding whitespace. -/
def exDfWs : Dataset :=
  { cols := [" State "]
    rows := [[(" State ", Cell.text "CA")]] }

/-- A one-row, one-column dataset holding a Python int cell. -/
def exDfInt : Dataset :=
  { cols := ["m"]
    rows := [[("m", Cell.intv 15000)]] }

/-! ### first-match characterisation lemmas -/

theorem firstMatch_eq_none_iff (p : String → Bool) (l : List String) :
    firstMatch p l = none ↔ ∀ x ∈ l, p x = false := by
  induction l with
  | nil => simp [firstMatch]
  | cons c cs ih =>
    by_cases h : p c
    · simp [firstMatch, h]
    · simp only [firstMatch, if_neg h, ih, List.mem_cons]
      constructor
      · intro hall x hx
        rcases hx with rfl | hx
        · exact Bool.eq_false_iff.mpr h
        · exact hall x hx
      · intro hall x hx
        exact hall x (Or.inr hx)

theorem firstMatch_eq_some_iff (p : String → Bool) (l : List String) (c : String) :
    firstMatch p l = some c ↔
      ∃ l₁ l₂, l = l₁ ++ c :: l₂ ∧ p c = true ∧ ∀ x ∈ l₁, p x = false := by
  induction l with
  | nil =>
    simp only [firstMatch]
    constructor
    · intro h; exact absurd h (by simp)
    · rintro ⟨l₁, l₂, h, -, -⟩
      exact absurd h (by simp)
  | cons a as ih =>
    by_cases h : p a
    · simp only [firstMatch, if_pos h]
      constructor
      · intro hc
        injection hc with hc
        subst hc
        exact ⟨[], as, rfl, h, by simp⟩
      · rintro ⟨l₁, l₂, heq, hpc, hfirst⟩
        cases l₁ with
        | nil =>
          simp only [List.nil_append, List.cons.injEq] at heq
          exact congrArg some heq.1
        | cons b bs =>
          simp only [List.cons_append, List.cons.injEq] at heq
          have hb : p b = false := hfirst b (List.mem_cons_self b bs)
          rw [← heq.1] at hb
          rw [h] at hb
          exact absurd hb (by simp)
    · simp only [firstMatch, if_neg h, ih]
      constructor
      · rintro ⟨l₁, l₂, heq, hpc, hfirst⟩
        refine ⟨a :: l₁, l₂, by rw [heq, List.cons_append], hpc, ?_⟩
        intro x hx
        rcases List.mem_cons.mp hx with rfl | hx
        · exact Bool.eq_false_iff.mpr h
        · exact hfirst x hx
      · rintro ⟨l₁, l₂, heq, hpc, hfirst⟩
        cases l₁ with
        | nil =>
          simp only [List.nil_append, List.cons.injEq] at heq
          rw [heq.1] at h
          exact absurd hpc (by simp [h])
        | cons b bs =>
          simp only [List.cons_append, List.cons.injEq] at heq
          refine ⟨bs, l₂, heq.2, hpc, ?_⟩
          intro x hx
          exact hfirst x (List.mem_cons_of_mem b hx)

/-! ### Claim theorems -/

/-- C1: role resolution assigns each role (name, state, type) to the first
column, in original order, satisfying that role's predicate — the name role
needs lower-cased "name" as substring without "state", the state and type
roles need exact lower-cased membership in their keyword sets — each role
scanned independently; the role is absent exactly when no column qualifies. -/
theorem C1_detect_columns_first_match (cols : List String) (c : String) :
    ((detectColumns cols).nameCol = some c ↔
      ∃ l₁ l₂, cols = l₁ ++ c :: l₂ ∧ namePred c = true ∧
        ∀ x ∈ l₁, namePred x = false) ∧
    ((detectColumns cols).stateCol = some c ↔
      ∃ l₁ l₂, cols = l₁ ++ c :: l₂ ∧ statePred c = true ∧
        ∀ x ∈ l₁, statePred x = false) ∧
    ((detectColumns cols).typeCol = some c ↔
      ∃ l₁ l₂, cols = l₁ ++ c :: l₂ ∧ typePred c = true ∧
        ∀ x ∈ l₁, typePred x = false) ∧
    ((detectColumns cols).nameCol = none ↔
      ∀ x ∈ cols, namePred x = false) ∧
    ((detectColumns cols).stateCol = none ↔
      ∀ x ∈ cols, statePred x = false) ∧
    ((detectColumns cols).typeCol = none ↔
      ∀ x ∈ cols, typePred x = false) := by
  refine ⟨?_, ?_, ?_, ?_, ?_, ?_⟩
  · exact firstMatch_eq_some_iff _ cols c
  · exact firstMatch_eq_some_iff _ cols c
  · exact firstMatch_eq_some_iff _ cols c
  · exact firstMatch_eq_none_iff _ cols
  · exact firstMatch_eq_none_iff _ cols
  · exact firstMatch_eq_none_iff _ cols

/-- The `> n * 0.5` test of the source is the strict `2 * count > n`
majority test on naturals. -/
theorem halfLt (a b : ℕ) : ((b : ℚ) * (1 / 2) < (a : ℚ)) ↔ b < 2 * a := by
  rw [mul_one_div, div_lt_iff₀ (by norm_num : (0 : ℚ) < 2)]
  constructor
  · intro h
    have h2 : b < a * 2 := by exact_mod_cast h
    omega
  · intro h
    have h2 : b < a * 2 := by omega
    exact_mod_cast h2

/-- C2: a column is numeric iff the count of its values that parse as
numbers strictly exceeds half the row count (so an exactly-50% column is
excluded), and a dataset with no rows yields the empty set, not an error. -/
theorem C2_numeric_columns (df : Dataset) (c : String) :
    (c ∈ getNumericColumns df ↔
      c ∈ df.cols ∧ df.rows.length < 2 * numericCount df c) ∧
    (∀ cols : List String, getNumericColumns { cols := cols, rows := [] } = []) := by
  constructor
  · rw [getNumericColumns, List.mem_filter]
    constructor
    · rintro ⟨hmem, hp⟩
      rw [decide_eq_true_eq, gt_iff_lt] at hp
      exact ⟨hmem, (halfLt _ _).mp hp⟩
    · rintro ⟨hmem, hcnt⟩
      exact ⟨hmem, decide_eq_true ((halfLt _ _).mpr hcnt)⟩
  · intro cols
    rw [getNumericColumns, List.filter_eq_nil_iff]
    intro a _
    simp only [numericCount, List.filter_nil, List.length_nil, Nat.cast_zero,
      CharP.cast_eq_zero, decide_eq_true_eq, gt_iff_lt, not_lt]
    norm_num

/-! #### Filtering lemmas -/

/-- `apply_filters` never changes the column list. -/
theorem applyFilters_cols (df : Dataset) (s t : String) :
    (applyFilters df s t).cols = df.cols := by
  rw [applyFilters]
  by_cases hemp : df.rows.isEmpty
  · rw [if_pos hemp]
  · rw [if_neg hemp]

/-- The rows kept by `apply_filters` are exactly those passing the state
predicate and the type predicate (logical AND), where an unresolved role,
the `"(All)"` sentinel or an empty selection keep everything. -/
theorem applyFilters_rows (df : Dataset) (s t : String) :
    (applyFilters df s t).rows =
      df.rows.filter (fun r => keepState df s r && keepType df t r) := by
  rw [applyFilters]
  by_cases hemp : df.rows.isEmpty
  · have h0 : df.rows = [] := by simpa using hemp
    rw [if_pos hemp, h0]
    rfl
  · rw [if_neg hemp]
    simp only [keepState, keepType]
    rcases hsc : (detectColumns df.cols).stateCol with _ | sc <;>
      rcases htc : (detectColumns df.cols).typeCol with _ | tc <;>
      simp only
    · simp
    · by_cases ht : t = "" ∨ t = "(All)"
      · have ht' : ¬(t ≠ "" ∧ t ≠ "(All)") := by tauto
        simp [ht', ht]
      · have ht' : t ≠ "" ∧ t ≠ "(All)" := by tauto
        simp [ht', ht]
    · by_cases hs : s = "" ∨ s = "(All)"
      · have hs' : ¬(s ≠ "" ∧ s ≠ "(All)") := by tauto
        simp [hs', hs]
      · have hs' : s ≠ "" ∧ s ≠ "(All)" := by tauto
        simp [hs', hs]
    · by_cases hs : s = "" ∨ s = "(All)" <;>
        by_cases ht : t = "" ∨ t = "(All)"
      · have hs' : ¬(s ≠ "" ∧ s ≠ "(All)") := by tauto
        have ht' : ¬(t ≠ "" ∧ t ≠ "(All)") := by tauto
        simp [hs', ht', hs, ht]
      · have hs' : ¬(s ≠ "" ∧ s ≠ "(All)") := by tauto
        have ht' : t ≠ "" ∧ t ≠ "(All)" := by tauto
        simp [hs', ht', hs, ht]
      · have hs' : s ≠ "" ∧ s ≠ "(All)" := by tauto
        have ht' : ¬(t ≠ "" ∧ t ≠ "(All)") := by tauto
        simp [hs', ht', hs, ht]
      · have hs' : s ≠ "" ∧ s ≠ "(All)" := by tauto
        have ht' : t ≠ "" ∧ t ≠ "(All)" := by tauto
        simp [hs', ht', hs, ht, Bool.and_comm]

/-- C3 counterexample: with the state selection equal to the empty string,
`apply_filters` keeps rows whose state is not the empty string — it does
not keep exactly the rows equal to the selection. -/
theorem C3_counterexample :
    (applyFilters exDf "" "(All)").rows ≠
      exDf.rows.filter (fun r => cellEqStr (getCell r "state") "") := by
  decide

/-- C3 (amended): `apply_filters` keeps exactly the rows whose resolved
state and type cells equal the respective selections (exact, case-sensitive
match), combined with logical AND — except that an `"(All)"` selection, an
*empty-string* selection, or an unresolved role imposes no constraint; with
both selections `"(All)"` the input dataset is returned unchanged. -/
theorem C3_apply_filters_amended :
    (∀ (df : Dataset) (s t : String) (r : Row),
        r ∈ (applyFilters df s t).rows ↔
          r ∈ df.rows ∧ keepState df s r = true ∧ keepType df t r = true) ∧
    (∀ df : Dataset, applyFilters df "(All)" "(All)" = df) := by
  constructor
  · intro df s t r
    rw [applyFilters_rows, List.mem_filter, Bool.and_eq_true]
  · intro df
    rcases df with ⟨cols, rows⟩
    by_cases hemp : rows.isEmpty
    · simp [applyFilters, hemp]
    · rcases h1 : (detectColumns cols).stateCol with _ | sc <;>
        rcases h2 : (detectColumns cols).typeCol with _ | tc <;>
        simp [applyFilters, hemp, h1, h2]

/-- C3 witness: on the concrete one-row dataset, a row passes the
California state filter exactly as the membership characterisation says. -/
theorem C3_witness :
    [("school_name", Cell.text "A U"), ("state", Cell.text "CA"),
     ("val", Cell.floatv 1)] ∈ (applyFilters exDf "CA" "(All)").rows :=
  (C3_apply_filters_amended.1 exDf "CA" "(All)" _).mpr
    ⟨by decide, by decide, by decide⟩

/-- Concrete evaluation: the numeric columns of `exDf` are `["val"]`. -/
theorem getNumericColumns_exDf : getNumericColumns exDf = ["val"] := by
  rw [getNumericColumns, show exDf.cols = ["school_name", "state", "val"] from rfl]
  rw [List.filter_cons, List.filter_cons, List.filter_cons, List.filter_nil]
  norm_num [show numericCount exDf "school_name" = 0 from rfl,
    show numericCount exDf "state" = 0 from rfl,
    show numericCount exDf "val" = 1 from rfl,
    show exDf.rows.length = 1 from rfl]

/-- Concrete evaluation: `exDfNoNum` has no numeric column. -/
theorem getNumericColumns_exDfNoNum : getNumericColumns exDfNoNum = [] := by
  rw [getNumericColumns, show exDfNoNum.cols = ["a"] from rfl]
  rw [List.filter_cons, List.filter_nil]
  norm_num [show numericCount exDfNoNum "a" = 0 from rfl,
    show exDfNoNum.rows.length = 2 from rfl]

/-- C4 counterexample: loading a dataset with no numeric columns leaves the
previous metric selection in place, so it does not reference a member of
the new dataset's numeric column set. -/
theorem C4_counterexample :
    (setupUiAfterLoad exDfNoNum
        { stateSel := "(All)", typeSel := "(All)", metricSel := "stale" }).metricSel ∉
      getNumericColumns exDfNoNum := by
  rw [getNumericColumns_exDfNoNum]
  simp [setupUiAfterLoad, getNumericColumns_exDfNoNum]

/-- C4 (amended): after every load both filter selections are reset to the
`"(All)"` default; the metric selection is reset to the first numeric
column when the new dataset has one, but when the new numeric column set is
empty the previous metric selection is retained untouched. -/
theorem C4_setup_after_load_amended (df : Dataset) (old : Selections) :
    (setupUiAfterLoad df old).stateSel = "(All)" ∧
    (setupUiAfterLoad df old).typeSel = "(All)" ∧
    (∀ c cs, getNumericColumns df = c :: cs →
      (setupUiAfterLoad df old).metricSel = c) ∧
    (getNumericColumns df = [] →
      (setupUiAfterLoad df old).metricSel = old.metricSel) := by
  refine ⟨rfl, rfl, ?_, ?_⟩
  · intro c cs h
    simp [setupUiAfterLoad, h]
  · intro h
    simp [setupUiAfterLoad, h]

/-- C4 witness: on the concrete dataset whose numeric columns are
`["val"]`, the metric selection is reset to `"val"`. -/
theorem C4_witness :
    (setupUiAfterLoad exDf
        { stateSel := "x", typeSel := "y", metricSel := "old" }).metricSel = "val" :=
  (C4_setup_after_load_amended exDf _).2.2.1 "val" [] getNumericColumns_exDf

/-- C5 counterexample: on the empty filtered view obtained by selecting a
state absent from the data, the count aggregate is reported as the number
zero, not as "not available". -/
theorem C5_counterexample :
    (applyFilters exDf "TX" "(All)").rows = [] ∧
    (summaryCore (applyFilters exDf "TX" "(All)")
        (detectColumns exDf.cols) "val").count = 0 := by
  constructor <;> decide

/-- C5 (amended): on an empty filtered view the mean and the median are
reported as "not available" while the count is reported as the number zero;
the mean and the median are "not available" whenever the metric is empty or
absent from the view or no value of it parses as numeric; and whenever at
least one value parses, the mean is reported as an actual value (so a mean
of exactly 0 is `some 0`, distinguishable from absence). -/
theorem C5_summary_amended (view : Dataset) (roles : RoleMap) (metric : String) :
    (view.rows = [] →
      (summaryCore view roles metric).count = 0 ∧
      (summaryCore view roles metric).avg = none ∧
      (summaryCore view roles metric).med = none) ∧
    (¬(metric ≠ "" ∧ metric ∈ view.cols) →
      (summaryCore view roles metric).avg = none ∧
      (summaryCore view roles metric).med = none) ∧
    (parsedValues view metric = [] →
      (summaryCore view roles metric).avg = none ∧
      (summaryCore view roles metric).med = none) ∧
    (∀ l, parsedValues view metric = l → l ≠ [] → metric ≠ "" →
      metric ∈ view.cols →
      (summaryCore view roles metric).avg = some (l.sum / (l.length : ℚ)) ∧
      ∃ q, (summaryCore view roles metric).med = some q) := by
  refine ⟨?_, ?_, ?_, ?_⟩
  · intro h0
    have hv : parsedValues view metric = [] := by simp [parsedValues, h0]
    by_cases hc : metric ≠ "" ∧ metric ∈ view.cols <;>
      rcases hn : roles.nameCol with _ | nc <;>
      simp [summaryCore, hn, hc, h0, hv, meanOpt, medianOpt, dedupFirst]
  · intro hc
    simp [summaryCore, hc]
  · intro hv
    by_cases hc : metric ≠ "" ∧ metric ∈ view.cols <;>
      simp [summaryCore, hc, hv, meanOpt, medianOpt]
  · intro l hl hne h1 h2
    have hemp : l.isEmpty = false := by
      cases l with
      | nil => exact absurd rfl hne
      | cons a as => rfl
    constructor
    · simp [summaryCore, h1, h2, hl, meanOpt, hemp]
    · simp only [summaryCore, h1, h2, hl]
      simp only [ne_eq, h1, not_false_eq_true, true_and, if_pos h2]
      rw [medianOpt, hemp]
      simp only [Bool.false_eq_true, if_false]
      split_ifs <;> exact ⟨_, rfl⟩

/-- C5 witness: on the concrete empty filtered view, mean and median are
both reported "not available". -/
theorem C5_witness :
    (summaryCore (applyFilters exDf "TX" "(All)")
        (detectColumns exDf.cols) "val").avg = none ∧
    (summaryCore (applyFilters exDf "TX" "(All)")
        (detectColumns exDf.cols) "val").med = none :=
  ((C5_summary_amended (applyFilters exDf "TX" "(All)")
      (detectColumns exDf.cols) "val").1 (by decide)).2

/-- C6 counterexample: a CSV load that succeeds with zero rows *replaces*
the current dataset with the empty one and reports plain success — it does
not keep the previous dataset, nor warn. -/
theorem C6_counterexample :
    (loadCsv exDf (Except.ok { cols := ["a"], rows := [] })).1 ≠ exDf ∧
    (loadCsv exDf (Except.ok { cols := ["a"], rows := [] })).2 = LoadMsg.info := by
  constructor <;> decide

/-- C6 (amended): a failed load (CSV or database) reports an error and
keeps the current dataset; a database load succeeding with zero rows
reports a warning and keeps the current dataset; but a CSV load that
succeeds always replaces the dataset — even when it has zero rows — and
reports success. -/
theorem C6_load_amended (prev : Dataset) (e : String) (d : Dataset) :
    loadCsv prev (Except.error e) = (prev, LoadMsg.loadError) ∧
    loadDb prev (Except.error e) = (prev, LoadMsg.loadError) ∧
    (d.rows = [] → loadDb prev (Except.ok d) = (prev, LoadMsg.warning)) ∧
    (d.rows ≠ [] → loadDb prev (Except.ok d) = (stripCols d, LoadMsg.info)) ∧
    loadCsv prev (Except.ok d) = (stripCols d, LoadMsg.info) := by
  refine ⟨rfl, rfl, ?_, ?_, rfl⟩
  · intro h
    simp [loadDb, h]
  · intro h
    have hf : d.rows.isEmpty = false := by
      cases hr : d.rows with
      | nil => exact absurd hr h
      | cons a as => rfl
    simp [loadDb, hf]

/-- C6 witness: a database load returning zero rows keeps the previous
dataset and warns. -/
theorem C6_witness :
    loadDb exDf (Except.ok { cols := ["a"], rows := [] }) =
      (exDf, LoadMsg.warning) :=
  (C6_load_amended exDf "" { cols := ["a"], rows := [] }).2.2.1 rfl

/-- C7 counterexample: a chart refresh with a metric absent from the view
does not leave the prior display unchanged — the previously rendered chart
is destroyed (cleared) and the summary labels are refreshed. -/
theorem C7_counterexample :
    updateCharts exDf "(All)" "(All)" "zzz"
        { summaryD := none, chart := some (Chart.hist [1]), table := none } ≠
      { summaryD := none, chart := some (Chart.hist [1]), table := none } := by
  decide

/-- C7 (amended): on a chart refresh over a non-empty dataset with the
selected metric empty or absent from the view, a warning is shown and chart
and table *rendering* are skipped, but the display is not left unchanged:
the summary labels are refreshed, the chart area is cleared (the prior
chart widget is destroyed before the metric check), and only the table
keeps its prior contents. -/
theorem C7_missing_metric_amended (df : Dataset) (s t metric : String)
    (disp : Display) :
    df.rows ≠ [] → (metric = "" ∨ metric ∉ df.cols) →
    updateCharts df s t metric disp =
      { summaryD := some (summaryCore (applyFilters df s t)
          (detectColumns df.cols) metric)
        chart := none
        table := disp.table } := by
  intro h0 hm
  rcases disp with ⟨sd, ch, tb⟩
  have hf : df.rows.isEmpty = false := by
    cases hr : df.rows with
    | nil => exact absurd hr h0
    | cons a as => rfl
  have hm' : metric = "" ∨ metric ∉ (applyFilters df s t).cols := by
    rwa [applyFilters_cols]
  simp only [updateCharts, hf, Bool.false_eq_true, if_false]
  rw [if_pos hm']

/-- C7 witness: concrete refresh with a missing metric — the table is kept,
the chart is cleared, the summary is recomputed. -/
theorem C7_witness :
    updateCharts exDf "(All)" "(All)" "zzz"
        { summaryD := none, chart := some (Chart.hist []),
          table := some { headers := [], colsSel := [], rowsOut := [] } } =
      { summaryD := some (summaryCore (applyFilters exDf "(All)" "(All)")
          (detectColumns exDf.cols) "zzz")
        chart := none
        table := some { headers := [], colsSel := [], rowsOut := [] } } :=
  C7_missing_metric_amended exDf "(All)" "(All)" "zzz" _ (by decide) (by decide)

/-- C8 counterexample: with no state role and a metric column none of whose
values parse, the histogram branch plots an empty histogram rather than the
"no valid data" placeholder. -/
theorem C8_counterexample :
    buildChart exDfNoState (detectColumns exDfNoState.cols) "val" =
      Chart.hist [] ∧
    Chart.hist [] ≠ Chart.placeholder := by
  constructor <;> decide

/-- C8 (amended): when a state role is resolved and the metric column is
entirely missing after filtering, the bar-chart branch shows the "no valid
data" placeholder; but when no state role is resolved the histogram branch
always plots the histogram of the parseable values — an empty histogram,
not a placeholder, when the metric is entirely missing. -/
theorem C8_chart_amended (view : Dataset) (roles : RoleMap) (metric : String) :
    (∀ sc, roles.stateCol = some sc →
      (∀ r ∈ view.rows, toNum (getCell r metric) = none) →
      buildChart view roles metric = Chart.placeholder) ∧
    (roles.stateCol = none →
      buildChart view roles metric = Chart.hist (parsedValues view metric)) := by
  constructor
  · intro sc hsc hall
    have hgv : ∀ k, groupValues view sc metric k = [] := by
      intro k
      rw [groupValues, List.filterMap_eq_nil_iff]
      intro r hr
      exact hall r (List.mem_of_mem_filter hr)
    have hg : groupedTop10 view sc metric = [] := by
      simp only [groupedTop10]
      have hwm : (dedupFirst ((view.rows.map (fun r => getCell r sc)).filter
          (fun v => decide (v ≠ Cell.missing)))).filterMap (fun k =>
            (meanOpt (groupValues view sc metric k)).map (fun m => (k, m))) = [] := by
        rw [List.filterMap_eq_nil_iff]
        intro k _
        rw [hgv k]
        rfl
      rw [hwm]
      rfl
    simp only [buildChart, hsc, hg]
    rfl
  · intro h
    simp only [buildChart, h]

/-- C8 witness: concrete dataset with a state role and an all-text metric —
the bar branch reports the placeholder. -/
theorem C8_witness :
    buildChart exDfStateMiss (detectColumns exDfStateMiss.cols) "val" =
      Chart.placeholder :=
  (C8_chart_amended exDfStateMiss (detectColumns exDfStateMiss.cols) "val").1
    "state" (by decide) (by decide)

/-! #### Table-projection lemmas -/

/-- The name/state stage selects at most two columns. -/
theorem basePairs_length_le (roles : RoleMap) : (basePairs roles).length ≤ 2 := by
  rcases hn : roles.nameCol with _ | nc <;> rcases hs : roles.stateCol with _ | sc <;>
    simp [basePairs, hn, hs]

/-- After the metric stage at most three columns are selected. -/
theorem metricPairs_length_le (view : Dataset) (roles : RoleMap)
    (metric : String) : (metricPairs view roles metric).length ≤ 3 := by
  have hb := basePairs_length_le roles
  rw [metricPairs]
  split_ifs with h
  · rw [List.length_append]
    simp only [List.length_singleton]
    omega
  · omega

/-- The full column choice selects at most four columns. -/
theorem displayPairs_length_le (view : Dataset) (roles : RoleMap)
    (metric : String) (ncols : List String) :
    (displayPairs view roles metric ncols).length ≤ 4 := by
  have hm := metricPairs_length_le view roles metric
  rw [displayPairs]
  rcases hf : (if (metricPairs view roles metric).length < 4 then
      ncols.find? (fun c => decide (c ∉ (metricPairs view roles metric).map Prod.fst))
    else none) with _ | c
  · simp only [hf]
    omega
  · simp only [hf, List.length_append, List.length_singleton]
    omega

/-- An eligible metric is always among the selected columns. -/
theorem metric_mem_displayPairs (view : Dataset) (roles : RoleMap)
    (metric : String) (ncols : List String) :
    metric ≠ "" → metric ∈ view.cols →
    metric ∈ (displayPairs view roles metric ncols).map Prod.fst := by
  intro h1 h2
  have hmem : metric ∈ (metricPairs view roles metric).map Prod.fst := by
    rw [metricPairs]
    by_cases h3 : metric ∈ (basePairs roles).map Prod.fst
    · rw [if_neg (by tauto)]
      exact h3
    · rw [if_pos ⟨h1, h2, h3⟩]
      simp
  rw [displayPairs]
  rcases hf : (if (metricPairs view roles metric).length < 4 then
      ncols.find? (fun c => decide (c ∉ (metricPairs view roles metric).map Prod.fst))
    else none) with _ | c
  · simpa only [hf] using hmem
  · simp only [hf, List.map_append]
    exact List.mem_append_left _ hmem

/-- The name/state stage projects to the name column then the state
column. -/
theorem basePairs_fst (roles : RoleMap) :
    (basePairs roles).map Prod.fst =
      roles.nameCol.toList ++ roles.stateCol.toList := by
  rcases hn : roles.nameCol with _ | nc <;> rcases hs : roles.stateCol with _ | sc <;>
    simp [basePairs, hn, hs]

/-- The metric stage projects to name, state, then the metric when it is a
column of the view and not already included. -/
theorem metricPairs_fst (view : Dataset) (roles : RoleMap) (metric : String) :
    (metricPairs view roles metric).map Prod.fst =
      (if metric ≠ "" ∧ metric ∈ view.cols ∧
          metric ∉ roles.nameCol.toList ++ roles.stateCol.toList then
        (roles.nameCol.toList ++ roles.stateCol.toList) ++ [metric]
      else roles.nameCol.toList ++ roles.stateCol.toList) := by
  simp only [metricPairs]
  rw [apply_ite (List.map Prod.fst), List.map_append]
  simp only [List.map_cons, List.map_nil]
  rw [basePairs_fst]

/-- The columns selected by `update_table` are exactly the specification's
order: name, state, metric, then the first numeric column not yet
included while fewer than four columns are selected. -/
theorem displayPairs_fst (view : Dataset) (roles : RoleMap) (metric : String)
    (ncols : List String) :
    (displayPairs view roles metric ncols).map Prod.fst =
      specTableCols view roles metric ncols := by
  have hm := metricPairs_fst view roles metric
  simp only [displayPairs, specTableCols]
  rw [← hm]
  by_cases hl : (metricPairs view roles metric).length < 4
  · have hl' : ((metricPairs view roles metric).map Prod.fst).length < 4 := by
      rwa [List.length_map]
    rw [if_pos hl, if_pos hl']
    rcases hf : ncols.find? (fun c =>
        decide (c ∉ (metricPairs view roles metric).map Prod.fst)) with _ | c <;>
      simp [hf, List.map_append]
  · have hl' : ¬ ((metricPairs view roles metric).map Prod.fst).length < 4 := by
      rwa [List.length_map]
    rw [if_neg hl, if_neg hl']

/-- C9 counterexample: an integer-valued numeric cell is rendered by
`str(val)` — plain digits with no thousands grouping and no decimals —
because only Python floats take the `,.2f` branch. -/
theorem C9_counterexample :
    (updateTable exDfInt (detectColumns exDfInt.cols) "m" ["m"]).rowsOut =
      [["15000"]] ∧
    "15000" ≠ "15,000.00" := by
  constructor <;> decide

/-- C9 (amended): the preview table's columns are exactly, in order, the
name column (if resolved), the state column (if resolved), the current
metric (if a column of the view and not already included), then the first
additional numeric column not yet included while fewer than 4 columns are
selected — hence at most 4 columns; it shows the first 30 rows of the view
in original order, rendering each selected column's cell; and cells render
as: missing → "N/A", float → thousands-grouped with 2 decimals, int →
plain `str` digits (no grouping, no decimals), text → truncated to 50
characters. -/
theorem C9_table_amended (view : Dataset) (roles : RoleMap) (metric : String)
    (ncols : List String) :
    ((updateTable view roles metric ncols).colsSel =
      specTableCols view roles metric ncols) ∧
    ((updateTable view roles metric ncols).colsSel.length ≤ 4) ∧
    ((updateTable view roles metric ncols).rowsOut.length ≤ 30) ∧
    ((updateTable view roles metric ncols).rowsOut =
      (view.rows.take 30).map (fun r =>
        (updateTable view roles metric ncols).colsSel.map
          (fun c => formatCell (getCell r c)))) ∧
    (metric ≠ "" → metric ∈ view.cols →
      metric ∈ (updateTable view roles metric ncols).colsSel) ∧
    (formatCell Cell.missing = "N/A") ∧
    (∀ q, formatCell (Cell.floatv q) = formatGrouped q) ∧
    (∀ n : Int, formatCell (Cell.intv n) = toString n) ∧
    (∀ s, formatCell (Cell.text s) = (s.toList.take 50).asString ∧
      (formatCell (Cell.text s)).length ≤ 50) := by
  refine ⟨?_, ?_, ?_, ?_, ?_, rfl, fun q => rfl, fun n => rfl, ?_⟩
  · simpa only [updateTable] using displayPairs_fst view roles metric ncols
  · simpa only [updateTable, List.length_map] using
      displayPairs_length_le view roles metric ncols
  · simp only [updateTable, List.length_map, List.length_take]
    omega
  · simp only [updateTable, List.map_map]
    rfl
  · intro h1 h2
    simpa only [updateTable] using
      metric_mem_displayPairs view roles metric ncols h1 h2
  · intro s
    refine ⟨rfl, ?_⟩
    show ((s.toList.take 50).asString).length ≤ 50
    have : ((s.toList.take 50).asString).length = (s.toList.take 50).length := rfl
    rw [this, List.length_take]
    omega

/-- C9 witness: on the concrete one-column integer dataset the metric is
selected into the table's columns. -/
theorem C9_witness :
    "m" ∈ (updateTable exDfInt (detectColumns exDfInt.cols) "m" ["m"]).colsSel :=
  (C9_table_amended exDfInt (detectColumns exDfInt.cols) "m" ["m"]).2.2.2.2.1
    (by decide) (by decide)

/-! #### Whitespace-stripping lemmas -/

/-- Dropping leading whitespace is idempotent. -/
theorem dropWs_idem (l : List Char) : dropWs (dropWs l) = dropWs l := by
  induction l with
  | nil => rfl
  | cons c cs ih =>
    by_cases h : c.isWhitespace
    · have h1 : dropWs (c :: cs) = dropWs cs := by
        simp [dropWs, List.dropWhile_cons, h]
      rw [h1]
      exact ih
    · have h1 : dropWs (c :: cs) = c :: cs := by
        simp [dropWs, List.dropWhile_cons, h]
      rw [h1, h1]

/-- `dropWs l` is a suffix of `l`. -/
theorem dropWs_suffix (l : List Char) : ∃ t, l = t ++ dropWs l := by
  induction l with
  | nil => exact ⟨[], rfl⟩
  | cons c cs ih =>
    by_cases h : c.isWhitespace
    · obtain ⟨t, ht⟩ := ih
      refine ⟨c :: t, ?_⟩
      have h1 : dropWs (c :: cs) = dropWs cs := by
        simp [dropWs, List.dropWhile_cons, h]
      rw [h1, List.cons_append, ← ht]
    · refine ⟨[], ?_⟩
      have h1 : dropWs (c :: cs) = c :: cs := by
        simp [dropWs, List.dropWhile_cons, h]
      rw [h1, List.nil_append]

/-- A prefix of a list already free of leading whitespace is itself free of
leading whitespace. -/
theorem dropWs_of_append (x y : List Char) (h : dropWs (x ++ y) = x ++ y) :
    dropWs x = x := by
  cases x with
  | nil => rfl
  | cons c cs =>
    by_cases hc : c.isWhitespace
    · exfalso
      have hlen : (dropWs (cs ++ y)).length ≤ (cs ++ y).length :=
        (List.dropWhile_sublist Char.isWhitespace).length_le
      have h1 : dropWs ((c :: cs) ++ y) = dropWs (cs ++ y) := by
        simp [dropWs, List.dropWhile_cons, hc]
      rw [h1] at h
      have h2 := congrArg List.length h
      simp only [List.length_cons, List.length_append] at h2 hlen
      omega
    · simp [dropWs, List.dropWhile_cons, hc]

/-- Python's `strip` on character lists is idempotent. -/
theorem stripChars_idem (l : List Char) : stripChars (stripChars l) = stripChars l := by
  rw [stripChars, stripChars]
  set w := (dropWs l.reverse).reverse with hw
  have hwrev : dropWs w.reverse = w.reverse := by
    rw [hw, List.reverse_reverse]
    exact dropWs_idem _
  have hpre : ∃ t, w.reverse = (dropWs w).reverse ++ t := by
    obtain ⟨t, ht⟩ := dropWs_suffix w
    refine ⟨t.reverse, ?_⟩
    rw [← List.reverse_append, ← ht]
  obtain ⟨t, ht⟩ := hpre
  have hfix : dropWs ((dropWs w).reverse) = (dropWs w).reverse := by
    apply dropWs_of_append _ t
    rw [← ht]
    exact hwrev
  rw [hfix, List.reverse_reverse, dropWs_idem]

/-- `List.asString` then `String.toList` round-trips. -/
theorem toList_asString (l : List Char) : (List.asString l).toList = l := rfl

/-- Python's `strip` is idempotent on strings. -/
theorem stripStr_idem (s : String) : stripStr (stripStr s) = stripStr s := by
  rw [stripStr, stripStr, toList_asString, stripChars_idem]

/-- C10: after a successful load (CSV, or database with at least one row)
every column name of the current dataset is the stripped form of the
provider's column name — so all downstream consumers see only names free of
leading and trailing whitespace, and re-stripping any current column name
changes nothing. -/
theorem C10_strip_columns (prev d : Dataset) :
    (loadCsv prev (Except.ok d)).1 = stripCols d ∧
    (d.rows ≠ [] → (loadDb prev (Except.ok d)).1 = stripCols d) ∧
    (∀ c ∈ (stripCols d).cols, stripStr c = c) := by
  refine ⟨rfl, ?_, ?_⟩
  · intro h
    have hf : d.rows.isEmpty = false := by
      cases hr : d.rows with
      | nil => exact absurd hr h
      | cons a as => rfl
    simp [loadDb, hf]
  · intro c hc
    rw [stripCols] at hc
    obtain ⟨c0, _, rfl⟩ := List.mem_map.mp hc
    exact stripStr_idem c0

/-- C10 witness: loading the dataset whose sole column is `" State "`
yields the stripped column `"State"`, which re-stripping leaves alone. -/
theorem C10_witness :
    (loadDb exDf (Except.ok exDfWs)).1 = stripCols exDfWs ∧
    stripStr "State" = "State" :=
  ⟨(C10_strip_columns exDf exDfWs).2.1 (by decide),
   (C10_strip_columns exDf exDfWs).2.2 "State" (by decide)⟩

end EduDash
